import Mathlib

/-!
Verification of the lazy-resolve CRC example (src/examples/resolve.cpp).

The C++ file defines a SpiderMonkey class `Crc` exposing a constructor, an
`update(Uint8Array)` method and a `checksum` getter, resolved lazily on the
prototype.  Per-instance state is a single running CRC-32 accumulator
(`m_crc`), stored as the object's private pointer; the prototype is the
object whose private pointer is null.

The shallow embedding below models:
  * the external zlib `crc32` function (bitwise CRC-32, polynomial
    0xEDB88320, pre/post inversion, as zlib computes it);
  * JS values and property ids as far as the hooks inspect them;
  * each hook of the class as a pure Lean function.
-/

namespace zlib

/-- The reflected CRC-32 polynomial used by zlib. -/
def crcPoly : Nat := 0xEDB88320

/-- All-ones 32-bit mask, used for the pre/post inversion in `crc32`. -/
def crcMask : Nat := 0xFFFFFFFF

/-- One bit step of the CRC-32 computation: shift right, conditionally
xor in the polynomial. -/
def crcStepBit (c : Nat) : Nat :=
  if c % 2 = 1 then (c / 2) ^^^ crcPoly else c / 2

/-- Fold one byte into the CRC state: xor in the byte, then do eight bit
steps. -/
def crcStepByte (c : Nat) (b : Nat) : Nat :=
  crcStepBit (crcStepBit (crcStepBit (crcStepBit
    (crcStepBit (crcStepBit (crcStepBit (crcStepBit (c ^^^ (b % 256)))))))))

/-- zlib's `crc32(state, buf, len)`: invert the state, fold each byte,
invert again.  `crc32(0, nullptr, 0)` (the constructor's seed) is `0`. -/
def crc32 (st : Nat) (bs : List Nat) : Nat :=
  (bs.foldl crcStepByte (st ^^^ crcMask)) ^^^ crcMask

end zlib

/-- JS values as far as `updateImpl` inspects them: a `Uint8Array` object
(with its byte contents), any other object, `undefined`, a number, or some
other primitive. -/
inductive JSValue where
  | undefined
  | number (n : Nat)
  | objUint8 (bytes : List Nat)
  | objOther
  | otherPrimitive
deriving DecidableEq

/-- The errors the example reports (`JS_ReportError*` calls). -/
inductive JSError where
  | missingArgument
  | notUint8Array
  | tooManyBytes
  | prototypeUsage (what : String)
  | cantCallConstructor
deriving DecidableEq

/-- Property ids as far as `resolve` / `newEnumerate` inspect them: a
string id or any non-string id (`JSID_IS_STRING` false). -/
inductive JSId where
  | str (s : String)
  | nonString
deriving DecidableEq

/-- A member defined on an object by the resolve hook: a function with an
arity (`JS_DefineFunctionById`) or a getter-only property
(`JS_DefinePropertyById` with null setter). -/
inductive Member where
  | method (name : String) (arity : Nat)
  | getter (name : String)
deriving DecidableEq

/-- A `Crc`-class JS object: its private slot either holds the `m_crc`
accumulator (an instance) or is null (the prototype, or a finalized
object). -/
structure CrcObj where
  priv : Option Nat
deriving DecidableEq

namespace Crc

/-- `std::numeric_limits<unsigned>::max()`, the bound checked by
`updateImpl` against the typed array's byte length. -/
def unsignedMax : Nat := 2 ^ 32 - 1

/-- `Crc::getPriv`: read the private slot. -/
def getPriv (obj : CrcObj) : Option Nat := obj.priv

/-- `Crc::isPrototype`: the prototype is the object with a null private
slot. -/
def isPrototype (obj : CrcObj) : Bool := (getPriv obj).isNone

/-- The constructor's initial accumulator, `crc32(0L, nullptr, 0)`. -/
def crcInitial : Nat := zlib.crc32 0 []

/-- `Crc::constructor`: fails unless invoked as a construction call,
otherwise attaches a fresh `Crc` state with the initial accumulator. -/
def constructor (isConstructing : Bool) : Except JSError CrcObj :=
  if isConstructing then Except.ok { priv := some crcInitial }
  else Except.error JSError.cantCallConstructor

/-- `Crc::updateImpl` on accumulator `m` with call arguments `args`:
returns the accumulator after the call together with the call's result
(the C++ object survives a failed call, so the state is always
returned). -/
def updateImpl (m : Nat) (args : List JSValue) : Nat × Except JSError JSValue :=
  match args with
  | [] => (m, Except.error JSError.missingArgument)
  | JSValue.objUint8 bytes :: _ =>
    if bytes.length > unsignedMax then (m, Except.error JSError.tooManyBytes)
    else (zlib.crc32 m bytes, Except.ok JSValue.undefined)
  | _ :: _ => (m, Except.error JSError.notUint8Array)

/-- `Crc::getChecksumImpl` on accumulator `m`: no mutation, returns
`uint32_t(m_crc)` as a number. -/
def getChecksumImpl (m : Nat) : Nat × Except JSError JSValue :=
  (m, Except.ok (JSValue.number (m % 2 ^ 32)))

/-- `Crc::update` entry point: `checkIsInstance` (null private slot means
prototype, report usage error), then `updateImpl` on the private state. -/
def update (obj : CrcObj) (args : List JSValue) :
    CrcObj × Except JSError JSValue :=
  match getPriv obj with
  | none => (obj, Except.error (JSError.prototypeUsage "call update()"))
  | some m =>
    let r := updateImpl m args
    ({ priv := some r.1 }, r.2)

/-- `Crc::getChecksum` entry point: `checkIsInstance`, then
`getChecksumImpl`. -/
def getChecksum (obj : CrcObj) : CrcObj × Except JSError JSValue :=
  match getPriv obj with
  | none => (obj, Except.error (JSError.prototypeUsage "read checksum"))
  | some m =>
    let r := getChecksumImpl m
    ({ priv := some r.1 }, r.2)

/-- `Crc::newEnumerate`: appends nothing for instances; appends the ids
`"update"` and `"checksum"` to the engine-provided vector for the
prototype. -/
def newEnumerate (obj : CrcObj) (properties : List JSId) : List JSId :=
  if !isPrototype obj then properties
  else properties ++ [JSId.str "update", JSId.str "checksum"]

/-- `Crc::resolve`: returns the `*resolved` flag and the list of members
defined on `obj` during the call. -/
def resolve (obj : CrcObj) (id : JSId) : Bool × List Member :=
  if !isPrototype obj then (false, [])
  else
    match id with
    | JSId.nonString => (false, [])
    | JSId.str s =>
      if s = "update" then (true, [Member.method "update" 1])
      else if s = "checksum" then (true, [Member.getter "checksum"])
      else (false, [])

/-- `Crc::mayResolve`: cheap membership test on the id. -/
def mayResolve (id : JSId) : Bool :=
  match id with
  | JSId.nonString => false
  | JSId.str s => s = "update" || s = "checksum"

/-- `Crc::finalize`: deletes the private state if present and nulls the
slot; the boolean records whether a state was released by this call. -/
def finalize (obj : CrcObj) : CrcObj × Bool :=
  match getPriv obj with
  | none => (obj, false)
  | some _ => ({ priv := none }, true)

/-- A freshly constructed instance (the success result of
`Crc::constructor`). -/
def newInstance : CrcObj := { priv := some crcInitial }

end Crc

/-! ## Helper lemmas -/

/-- Incremental CRC folding composes: running `crc32` on `b1` and feeding
the result into a second `crc32` run on `b2` equals one run on
`b1 ++ b2`, because the post-inversion of the first call is undone by the
pre-inversion of the second. -/
theorem zlib.crc32_append (st : Nat) (b1 b2 : List Nat) :
    zlib.crc32 (zlib.crc32 st b1) b2 = zlib.crc32 st (b1 ++ b2) := by
  unfold zlib.crc32
  rw [List.foldl_append, Nat.xor_assoc, Nat.xor_self, Nat.xor_zero]

/-! ## Claim theorems -/

/-- C1: on the prototype (null private slot), `update` and the `checksum`
read both fail with the prototype-usage error, and the object — hence
every instance's accumulator — is returned unchanged. -/
theorem crc_prototype_usage (obj : CrcObj) (args : List JSValue)
    (h : Crc.isPrototype obj = true) :
    Crc.update obj args
      = (obj, Except.error (JSError.prototypeUsage "call update()")) ∧
    Crc.getChecksum obj
      = (obj, Except.error (JSError.prototypeUsage "read checksum")) := by
  have hn : Crc.getPriv obj = none := by
    simpa [Crc.isPrototype, Option.isNone_iff_eq_none] using h
  exact ⟨by simp [Crc.update, hn], by simp [Crc.getChecksum, hn]⟩

/-- C1 witness: the theorem applied to the prototype object itself. -/
theorem crc_prototype_usage_witness :
    Crc.update ⟨none⟩ []
      = (⟨none⟩, Except.error (JSError.prototypeUsage "call update()")) ∧
    Crc.getChecksum ⟨none⟩
      = (⟨none⟩, Except.error (JSError.prototypeUsage "read checksum")) :=
  crc_prototype_usage ⟨none⟩ [] rfl

/-- C2: updating a fresh instance with `b1` then `b2` succeeds and yields
the same checksum as one update with `b1 ++ b2` on a fresh instance,
whenever the lengths stay within the `unsigned` bound so no call errors. -/
theorem crc_incremental_eq_oneshot (b1 b2 : List Nat)
    (h : b1.length + b2.length ≤ Crc.unsignedMax) :
    (Crc.update Crc.newInstance [JSValue.objUint8 b1]).2
      = Except.ok JSValue.undefined ∧
    (Crc.update (Crc.update Crc.newInstance [JSValue.objUint8 b1]).1
      [JSValue.objUint8 b2]).2 = Except.ok JSValue.undefined ∧
    (Crc.update Crc.newInstance [JSValue.objUint8 (b1 ++ b2)]).2
      = Except.ok JSValue.undefined ∧
    (Crc.getChecksum (Crc.update (Crc.update Crc.newInstance
        [JSValue.objUint8 b1]).1 [JSValue.objUint8 b2]).1).2
      = (Crc.getChecksum
          (Crc.update Crc.newInstance [JSValue.objUint8 (b1 ++ b2)]).1).2 := by
  have h1 : ¬ b1.length > Crc.unsignedMax :=
    Nat.not_lt.mpr (le_trans (Nat.le_add_right _ _) h)
  have h2 : ¬ b2.length > Crc.unsignedMax :=
    Nat.not_lt.mpr (le_trans (Nat.le_add_left _ _) h)
  have h12 : ¬ Crc.unsignedMax < b1.length + b2.length := Nat.not_lt.mpr h
  refine ⟨?_, ?_, ?_, ?_⟩ <;>
    simp [Crc.update, Crc.newInstance, Crc.updateImpl, Crc.getChecksum,
      Crc.getChecksumImpl, Crc.getPriv, h1, h2, h12, zlib.crc32_append]

/-- C2 witness: the theorem applied to the one-byte sequences `[1]` and
`[2]`. -/
theorem crc_incremental_eq_oneshot_witness :
    ([1] : List Nat).length + ([2] : List Nat).length ≤ Crc.unsignedMax ∧
    (Crc.getChecksum (Crc.update (Crc.update Crc.newInstance
        [JSValue.objUint8 [1]]).1 [JSValue.objUint8 [2]]).1).2
      = (Crc.getChecksum
          (Crc.update Crc.newInstance [JSValue.objUint8 ([1] ++ [2])]).1).2 :=
  ⟨by decide, (crc_incremental_eq_oneshot [1] [2] (by decide)).2.2.2⟩

/-- C3 counterexample: `update` uses `requireAtLeast(1)`, so a call with
two arguments (not exactly one) succeeds instead of raising a type
error. -/
theorem crc_update_two_args_counterexample :
    ([JSValue.objUint8 [], JSValue.objUint8 []].length ≠ 1) ∧
    (Crc.update ⟨some 0⟩ [JSValue.objUint8 [], JSValue.objUint8 []]).2
      = Except.ok JSValue.undefined :=
  ⟨by decide, rfl⟩

/-- C3 (amended): on an instance, `update` errors exactly when the
argument list is empty (missing-argument), the first argument is not a
Uint8Array (type error), or the byte length exceeds the `unsigned`
maximum (capacity error); with at least one Uint8Array argument of legal
length it succeeds, folding the bytes into the accumulator — extra
arguments are ignored. -/
theorem crc_update_error_cases (m : Nat) (args : List JSValue) :
    (args = [] →
      Crc.update ⟨some m⟩ args
        = (⟨some m⟩, Except.error JSError.missingArgument)) ∧
    (∀ a rest, args = a :: rest → (∀ bs, a ≠ JSValue.objUint8 bs) →
      Crc.update ⟨some m⟩ args
        = (⟨some m⟩, Except.error JSError.notUint8Array)) ∧
    (∀ bs rest, args = JSValue.objUint8 bs :: rest →
      bs.length > Crc.unsignedMax →
      Crc.update ⟨some m⟩ args
        = (⟨some m⟩, Except.error JSError.tooManyBytes)) ∧
    (∀ bs rest, args = JSValue.objUint8 bs :: rest →
      bs.length ≤ Crc.unsignedMax →
      Crc.update ⟨some m⟩ args
        = (⟨some (zlib.crc32 m bs)⟩, Except.ok JSValue.undefined)) := by
  refine ⟨?_, ?_, ?_, ?_⟩
  · rintro rfl; rfl
  · rintro a rest rfl ha
    cases a with
    | objUint8 bs => exact absurd rfl (ha bs)
    | undefined => rfl
    | number n => rfl
    | objOther => rfl
    | otherPrimitive => rfl
  · rintro bs rest rfl hlen
    simp [Crc.update, Crc.updateImpl, Crc.getPriv, hlen]
  · rintro bs rest rfl hlen
    simp [Crc.update, Crc.updateImpl, Crc.getPriv, Nat.not_lt.mpr hlen]

/-- C3 witness: the missing-argument case of the amended theorem at a
concrete input. -/
theorem crc_update_error_cases_witness :
    Crc.update ⟨some 0⟩ [] = (⟨some 0⟩, Except.error JSError.missingArgument) :=
  (crc_update_error_cases 0 []).1 rfl

/-- C4: construction succeeds with the accumulator at `crc32(0, null, 0)`,
that initial value is the identity `0`, and reading `checksum` on the
fresh instance returns the number `0` without mutating the object. -/
theorem crc_fresh_checksum_zero :
    Crc.constructor true = Except.ok { priv := some Crc.crcInitial } ∧
    Crc.crcInitial = 0 ∧
    Crc.getChecksum { priv := some Crc.crcInitial }
      = ({ priv := some Crc.crcInitial }, Except.ok (JSValue.number 0)) :=
  ⟨rfl, rfl, rfl⟩

/-- C5: a plain (non-constructing) call fails with the
constructor-misuse error; a construction call returns a new object with a
freshly allocated state attached (so it is not the prototype). -/
theorem crc_constructor_spec :
    Crc.constructor false = Except.error JSError.cantCallConstructor ∧
    Crc.constructor true = Except.ok Crc.newInstance ∧
    Crc.isPrototype Crc.newInstance = false :=
  ⟨rfl, rfl, rfl⟩

/-- C6: `resolve` reports `resolved = false` and defines no member when
the object is not the prototype, or the id is not a string, or the name
is neither `"update"` nor `"checksum"`. -/
theorem crc_resolve_skip (obj : CrcObj) (id : JSId)
    (h : Crc.isPrototype obj = false ∨ id = JSId.nonString ∨
      (∀ s, id = JSId.str s → s ≠ "update" ∧ s ≠ "checksum")) :
    Crc.resolve obj id = (false, []) := by
  rcases h with h | h | h
  · simp [Crc.resolve, h]
  · subst h
    cases hp : Crc.isPrototype obj <;> simp [Crc.resolve, hp]
  · cases id with
    | nonString => cases hp : Crc.isPrototype obj <;> simp [Crc.resolve, hp]
    | str s =>
      obtain ⟨h1, h2⟩ := h s rfl
      cases hp : Crc.isPrototype obj <;> simp [Crc.resolve, hp, h1, h2]

/-- C6 witness: resolving `"update"` on an instance is skipped. -/
theorem crc_resolve_skip_witness :
    Crc.resolve ⟨some 0⟩ (JSId.str "update") = (false, []) :=
  crc_resolve_skip ⟨some 0⟩ (JSId.str "update") (Or.inl rfl)

/-- C7: on the prototype, resolving `"update"` defines the `update`
method with arity 1 and reports `resolved = true`; resolving
`"checksum"` defines the getter-only `checksum` property and reports
`resolved = true`. -/
theorem crc_resolve_defines (obj : CrcObj) (h : Crc.isPrototype obj = true) :
    Crc.resolve obj (JSId.str "update")
      = (true, [Member.method "update" 1]) ∧
    Crc.resolve obj (JSId.str "checksum")
      = (true, [Member.getter "checksum"]) := by
  constructor <;> simp [Crc.resolve, h]

/-- C7 witness: the theorem applied to the prototype object. -/
theorem crc_resolve_defines_witness :
    Crc.resolve ⟨none⟩ (JSId.str "update")
      = (true, [Member.method "update" 1]) ∧
    Crc.resolve ⟨none⟩ (JSId.str "checksum")
      = (true, [Member.getter "checksum"]) :=
  crc_resolve_defines ⟨none⟩ rfl

/-- C8: the enumeration hook appends exactly the names `"update"` and
`"checksum"`, each once, when invoked on the prototype (whatever the
engine-provided vector holds), and appends nothing on an instance. -/
theorem crc_newEnumerate_spec (obj : CrcObj) (props : List JSId) :
    (Crc.isPrototype obj = true →
      Crc.newEnumerate obj props
        = props ++ [JSId.str "update", JSId.str "checksum"] ∧
      (Crc.newEnumerate obj []).count (JSId.str "update") = 1 ∧
      (Crc.newEnumerate obj []).count (JSId.str "checksum") = 1) ∧
    (Crc.isPrototype obj = false → Crc.newEnumerate obj props = props) := by
  constructor
  · intro h
    refine ⟨by simp [Crc.newEnumerate, h], ?_, ?_⟩ <;>
      simp [Crc.newEnumerate, h, List.count_cons]
  · intro h
    simp [Crc.newEnumerate, h]

/-- C8 witness: the theorem applied to the prototype and the empty
vector. -/
theorem crc_newEnumerate_spec_witness :
    Crc.newEnumerate ⟨none⟩ []
      = [] ++ [JSId.str "update", JSId.str "checksum"] ∧
    (Crc.newEnumerate ⟨none⟩ []).count (JSId.str "update") = 1 ∧
    (Crc.newEnumerate ⟨none⟩ []).count (JSId.str "checksum") = 1 :=
  (crc_newEnumerate_spec ⟨none⟩ []).1 rfl

/-- C9: `finalize` is a no-op on an object with no attached state (the
prototype or an already-finalized object), it always leaves the slot
null, and a repeated `finalize` never releases a second time. -/
theorem crc_finalize_spec (obj : CrcObj) :
    (Crc.isPrototype obj = true → Crc.finalize obj = (obj, false)) ∧
    Crc.getPriv (Crc.finalize obj).1 = none ∧
    (Crc.finalize (Crc.finalize obj).1).2 = false := by
  cases obj with
  | mk p =>
    cases p with
    | none => exact ⟨fun _ => rfl, rfl, rfl⟩
    | some m =>
      refine ⟨fun h => ?_, rfl, rfl⟩
      simp [Crc.isPrototype, Crc.getPriv] at h

/-- C9 witness: no-op on the prototype, and no second release after
finalizing an instance. -/
theorem crc_finalize_spec_witness :
    Crc.finalize ⟨none⟩ = (⟨none⟩, false) ∧
    (Crc.finalize (Crc.finalize ⟨some 7⟩).1).2 = false :=
  ⟨(crc_finalize_spec ⟨none⟩).1 rfl, (crc_finalize_spec ⟨some 7⟩).2.2⟩

/-- C10: whenever `update` on an instance returns an error, the
accumulator is unchanged — every error exit happens before the fold. -/
theorem crc_failed_update_preserves_state (m : Nat) (args : List JSValue)
    (e : JSError) (h : (Crc.update ⟨some m⟩ args).2 = Except.error e) :
    (Crc.update ⟨some m⟩ args).1 = ⟨some m⟩ := by
  cases args with
  | nil => rfl
  | cons a rest =>
    cases a with
    | objUint8 bs =>
      by_cases hl : bs.length > Crc.unsignedMax
      · simp [Crc.update, Crc.updateImpl, Crc.getPriv, hl]
      · simp [Crc.update, Crc.updateImpl, Crc.getPriv, hl] at h
    | undefined => rfl
    | number n => rfl
    | objOther => rfl
    | otherPrimitive => rfl

/-- C10 witness: a type-error call leaves the accumulator at its old
value. -/
theorem crc_failed_update_preserves_state_witness :
    (Crc.update ⟨some 5⟩ [JSValue.objOther]).2
      = Except.error JSError.notUint8Array ∧
    (Crc.update ⟨some 5⟩ [JSValue.objOther]).1 = ⟨some 5⟩ :=
  ⟨rfl, crc_failed_update_preserves_state 5 [JSValue.objOther]
    JSError.notUint8Array rfl⟩
